import Mathlib

/-!
Shallow embedding of the breast-cancer survival prediction pipeline
(`src/fast-api/main.py` and `src/linear-regression/predict_survival.py`).

The prediction core of both files is the same `predict_survival` function:
build a one-row dataframe from the patient dict, fill every schema feature
missing from the record with 0, encode categorical columns (falling back to
code 0 on an unknown category), reorder the columns to the metadata feature
order, scale, invoke the regressor, risk-stratify the raw day estimate, and
return the rounded figures together with the tier, color and recommendation.

Floats are modelled as rationals; the trained scaler, regressor and the
per-column label encoders are opaque artifacts and enter as parameters.
A dataframe row is an association list from column name to cell value.
-/

/-- A dataframe cell: either a numeric value or a raw category string. -/
inductive Value where
  | num (q : ℚ)
  | str (s : String)
deriving DecidableEq, Repr

/-- One dataframe row, keyed by column name (`pd.DataFrame([patient_data])`). -/
abbrev Record := List (String × Value)

/-- The ordered feature list `metadata["features"]` from the artifact bundle. -/
abbrev Schema := List String

/-- A fitted label encoder: `le.transform(df[col].astype(str))` succeeds with an
integer code on a known category and raises `ValueError` on an unknown one,
modelled as an `Option`. -/
abbrev Encoder := Value → Option ℤ

/-- The loaded `label_encoders` dict: column name to fitted encoder. -/
abbrev EncoderTable := List (String × Encoder)

/-- Column access on a row: the value of the first column with that name,
`none` when the column is absent (`feature not in df.columns`). -/
def lookupCol (df : Record) (name : String) : Option Value :=
  (df.find? (fun p => p.1 == name)).map (fun p => p.2)

/-- Loop `for feature in metadata["features"]: if feature not in df.columns:
df[feature] = 0` — every schema feature absent from the row is added with
value 0. -/
def fillMissing : Schema → Record → Record
  | [], df => df
  | f :: rest, df =>
      fillMissing rest (if (lookupCol df f).isSome then df else df ++ [(f, Value.num 0)])

/-- Body of the encoding `try`: the cell becomes the encoder's integer code,
or 0 when the category is unknown (`except ValueError: df[col] = 0`). -/
def encodeValue (le : Encoder) (v : Value) : Value :=
  match le v with
  | some c => Value.num (c : ℚ)
  | none => Value.num 0

/-- One iteration of `for col, le in label_encoders.items()`: when the column
is present in the row, its cell is replaced by the encoded value. -/
def encodeColumn (col : String) (le : Encoder) (df : Record) : Record :=
  if (lookupCol df col).isSome then
    df.map (fun p => if p.1 = col then (p.1, encodeValue le p.2) else p)
  else df

/-- The full encoding loop over the `label_encoders` dict. -/
def encodeCats : EncoderTable → Record → Record
  | [], df => df
  | (col, le) :: rest, df => encodeCats rest (encodeColumn col le df)

/-- Column reordering `df = df[metadata["features"]]`: select the schema
columns in schema order; `none` models the `KeyError` pandas raises when a
requested column is absent. -/
def reorder : Schema → Record → Option (List Value)
  | [], _ => some []
  | f :: rest, df =>
      match lookupCol df f, reorder rest df with
      | some v, some vs => some (v :: vs)
      | _, _ => none

/-- The feature-alignment stage of `predict_survival`: fill missing schema
features with 0, encode categorical columns, reorder to the schema. -/
def alignFeatures (features : Schema) (encoders : EncoderTable) (df : Record) :
    Option (List Value) :=
  reorder features (encodeCats encoders (fillMissing features df))

/-- The cell a row holds for a column, with the pipeline's 0 default. -/
def colValue (df : Record) (name : String) : Value :=
  (lookupCol df name).getD (Value.num 0)

/-- The triple produced by the `if/elif` risk-stratification ladder. -/
structure RiskInfo where
  risk_category : String
  risk_color : String
  recommendation : String
deriving DecidableEq, Repr

/-- Risk stratification exactly as the `if predicted_days < 180 / elif < 365 /
elif < 730 / else` ladder in `predict_survival`. -/
def riskStratify (predicted_days : ℚ) : RiskInfo :=
  if predicted_days < 180 then
    ⟨"HIGH RISK", "🔴", "Immediate intensive care and close monitoring required"⟩
  else if predicted_days < 365 then
    ⟨"ELEVATED RISK", "🟠", "Enhanced monitoring and aggressive treatment recommended"⟩
  else if predicted_days < 730 then
    ⟨"MODERATE RISK", "🟡", "Standard treatment protocol with regular follow-ups"⟩
  else
    ⟨"LOWER RISK", "🟢", "Standard care with routine monitoring"⟩

/-- Round to the nearest integer, ties to even — the rounding of Python's
built-in `round` on the mathematical value. -/
def roundHalfEven (q : ℚ) : ℤ :=
  if q - (⌊q⌋ : ℚ) < 1 / 2 then ⌊q⌋
  else if (1 : ℚ) / 2 < q - (⌊q⌋ : ℚ) then ⌊q⌋ + 1
  else if ⌊q⌋ % 2 = 0 then ⌊q⌋ else ⌊q⌋ + 1

/-- Python's `round(x, ndigits)` on the mathematical value. -/
def pyRound (q : ℚ) (ndigits : ℕ) : ℚ :=
  ((roundHalfEven (q * 10 ^ ndigits) : ℚ)) / 10 ^ ndigits

/-- The dict returned by `predict_survival`. -/
structure PredictionOutput where
  predicted_days : ℚ
  predicted_months : ℚ
  predicted_years : ℚ
  risk_category : String
  risk_color : String
  recommendation : String
deriving DecidableEq, Repr

/-- The whole `predict_survival` function, parameterized by the opaque loaded
artifacts: the fitted scaler (`scaler.transform`), the trained regressor
(`model.predict(...)[0]`), the metadata feature list and the encoder dict.
`none` models an exception escaping the pandas column selection. -/
def predict_survival (scaler : List Value → List ℚ) (model : List ℚ → ℚ)
    (features : Schema) (encoders : EncoderTable) (patient_data : Record) :
    Option PredictionOutput :=
  match alignFeatures features encoders patient_data with
  | none => none
  | some df =>
      let df_scaled := scaler df
      let predicted_days := model df_scaled
      let predicted_months := predicted_days / 30
      let predicted_years := predicted_days / 365
      let r := riskStratify predicted_days
      some
        { predicted_days := pyRound predicted_days 0
          predicted_months := pyRound predicted_months 1
          predicted_years := pyRound predicted_years 2
          risk_category := r.risk_category
          risk_color := r.risk_color
          recommendation := r.recommendation }

/-- The raw, unrounded day estimate `model.predict(df_scaled)[0]` for a given
patient record, before any rounding or stratification. -/
def rawEstimate (scaler : List Value → List ℚ) (model : List ℚ → ℚ)
    (features : Schema) (encoders : EncoderTable) (patient_data : Record) :
    Option ℚ :=
  (alignFeatures features encoders patient_data).map (fun v => model (scaler v))

/-!
Input validation: the pydantic `PatientData` model of `src/fast-api/main.py`.
Field bounds come from the `Field(..., ge=..., le=...)` declarations and the
three `field_validator` functions. A validator raising `ValueError` is
modelled as `Except.error` with the message it formats.
-/

/-- The pydantic `PatientData` record (wire aliases aside, the Lean field
names are the attribute names of the Python class). -/
structure PatientData where
  Age : ℤ
  Gender : String
  Protein1 : ℚ
  Protein2 : ℚ
  Protein3 : ℚ
  Protein4 : ℚ
  Tumour_Stage : String
  Histology : String
  ER_status : String
  PR_status : String
  HER2_status : String
  Surgery_type : String
deriving DecidableEq, Repr

/-- `Age: int = Field(..., ge=18, le=100)`. -/
def validateAge (a : ℤ) : Except String ℤ :=
  if 18 ≤ a ∧ a ≤ 100 then .ok a
  else .error "Input should be between 18 and 100: Age"

/-- `ProteinN: float = Field(..., ge=-5.0, le=5.0)`. -/
def validateProtein (name : String) (x : ℚ) : Except String ℚ :=
  if -5 ≤ x ∧ x ≤ 5 then .ok x
  else .error ("Input should be between -5.0 and 5.0: " ++ name)

/-- Python's `str.upper` on the character list of a string. -/
def strUpper (s : String) : String := String.mk (s.data.map Char.toUpper)

/-- Python's `str.lower` on the character list of a string. -/
def strLower (s : String) : String := String.mk (s.data.map Char.toLower)

/-- The allowed list of `validate_gender`. -/
def genderAllowed : List String :=
  ["MALE", "FEMALE", "Male", "Female", "male", "female"]

/-- `validate_gender`: membership of `v.upper()` in the uppercased allowed
list, normalizing to `v.upper()`. -/
def validate_gender (v : String) : Except String String :=
  if strUpper v ∈ genderAllowed.map strUpper then .ok (strUpper v)
  else .error ("Gender must be one of: " ++ String.intercalate ", " genderAllowed)

/-- `validate_tumour_stage`: membership of `v.upper()` in `[I, II, III]`,
normalizing to `v.upper()`. -/
def validate_tumour_stage (v : String) : Except String String :=
  if strUpper v ∈ (["I", "II", "III"] : List String) then .ok (strUpper v)
  else .error "Tumour_Stage must be one of: I, II, III"

/-- The exact allowed list of `validate_status` in the source: six specific
casings, checked by plain membership of the raw input. -/
def statusAllowed : List String :=
  ["Positive", "Negative", "positive", "negative", "POSITIVE", "NEGATIVE"]

/-- Python's `str.capitalize`: first character uppercased, the rest
lowercased. -/
def pyCapitalize (s : String) : String :=
  match s.data with
  | [] => ""
  | c :: cs => String.mk (c.toUpper :: cs.map Char.toLower)

/-- The error message `validate_status` formats. -/
def statusErrMsg : String :=
  "Status must be one of: " ++ String.intercalate ", " statusAllowed

/-- `validate_status` (shared by `ER_status`, `PR_status`, `HER2_status`):
`if v not in allowed: raise ValueError(...)` then `return v.capitalize()`. -/
def validate_status (v : String) : Except String String :=
  if v ∈ statusAllowed then .ok (pyCapitalize v)
  else .error statusErrMsg

/-- Case-insensitive string match, the predicate the spec's claim about
status validation quantifies over. -/
def matchesCaseInsensitive (v canonical : String) : Bool :=
  strLower v == strLower canonical

/-- Pydantic validation of a whole `PatientData` submission: every field
bound and `field_validator` applied, normalized values stored, `Histology`
and `Surgery_type` carried through untouched (they have no validator). -/
def validatePatient (p : PatientData) : Except String PatientData :=
  Except.bind (validateAge p.Age) fun age =>
  Except.bind (validate_gender p.Gender) fun gender =>
  Except.bind (validateProtein "Protein1" p.Protein1) fun q1 =>
  Except.bind (validateProtein "Protein2" p.Protein2) fun q2 =>
  Except.bind (validateProtein "Protein3" p.Protein3) fun q3 =>
  Except.bind (validateProtein "Protein4" p.Protein4) fun q4 =>
  Except.bind (validate_tumour_stage p.Tumour_Stage) fun stage =>
  Except.bind (validate_status p.ER_status) fun er =>
  Except.bind (validate_status p.PR_status) fun prs =>
  Except.bind (validate_status p.HER2_status) fun her2 =>
  Except.ok
    { Age := age
      Gender := gender
      Protein1 := q1
      Protein2 := q2
      Protein3 := q3
      Protein4 := q4
      Tumour_Stage := stage
      Histology := p.Histology
      ER_status := er
      PR_status := prs
      HER2_status := her2
      Surgery_type := p.Surgery_type }

/-!
The `/predict` endpoint of `src/fast-api/main.py`: run the pipeline on the
validated record; any exception is re-raised as
`HTTPException(status_code=500, detail=f"Prediction error: {str(e)}")`.
-/

/-- The FastAPI `HTTPException` payload surfaced to the HTTP caller. -/
structure HTTPFailure where
  status_code : ℕ
  detail : String
deriving DecidableEq, Repr

/-- The `try/except` of the `predict` endpoint, abstracted over the outcome
of the pipeline call (`Except.error e` models an exception with message
`e`): on failure, HTTP 500 with detail `"Prediction error: " ++ e`. -/
def predictEndpoint (pipeline : Except String PredictionOutput) :
    Except HTTPFailure PredictionOutput :=
  match pipeline with
  | .ok r => .ok r
  | .error e => .error { status_code := 500, detail := "Prediction error: " ++ e }

/-!
Spec-side reading of the risk indicators: the threshold table of spec §4.4
names the indicators `red`, `orange`, `yellow`, `green` as "symbolic tags"
for the color glyphs the code emits. These two definitions follow the
spec's words, to be compared with `riskStratify`.
-/

/-- Modelled from the spec: the symbolic name of each color glyph the code
uses as its risk indicator. -/
def indicatorName : String → Option String
  | "🔴" => some "red"
  | "🟠" => some "orange"
  | "🟡" => some "yellow"
  | "🟢" => some "green"
  | _ => none

/-- Modelled from the spec: the indicator column of the §4.4 threshold
table, keyed by tier. -/
def specIndicator : String → Option String
  | "HIGH RISK" => some "red"
  | "ELEVATED RISK" => some "orange"
  | "MODERATE RISK" => some "yellow"
  | "LOWER RISK" => some "green"
  | _ => none

/-!
Concrete artifact instantiations used by witnesses and counterexamples.
-/

/-- A concrete scaler: the numeric content of each cell, strings as 0. -/
def constScaler : List Value → List ℚ :=
  fun v => v.map (fun c => match c with | .num q => q | .str _ => 0)

/-- A concrete regressor returning a negative day estimate (a linear model
is unbounded below; nothing in the pipeline clamps it). -/
def negModel : List ℚ → ℚ := fun _ => -5

/-- A concrete regressor returning 179.6 days. -/
def model1796 : List ℚ → ℚ := fun _ => 1796 / 10

/-- A concrete regressor returning 100 days. -/
def model100 : List ℚ → ℚ := fun _ => 100

/-- A concrete fitted encoder knowing the single category `Known`. -/
def toyEnc : Encoder :=
  fun v => if v = Value.str "Known" then some 1 else none

/-- A concrete patient with empty free-text fields. -/
def emptyTextPatient : PatientData :=
  { Age := 68, Gender := "FEMALE", Protein1 := -1 / 2, Protein2 := 4 / 5,
    Protein3 := 1 / 5, Protein4 := -3 / 10, Tumour_Stage := "III", Histology := "",
    ER_status := "Negative", PR_status := "Negative", HER2_status := "Positive",
    Surgery_type := "" }

/-- A concrete patient row for witnesses. -/
def toyRecord : Record := [("Age", Value.num 68)]

/-!
Helper lemmas about column lookup and the pipeline stages.
-/

/-- Lookup in the empty row is `none`. -/
theorem lookupCol_nil (f : String) : lookupCol [] f = none := rfl

/-- Lookup steps through a cons cell by comparing the head's column name. -/
theorem lookupCol_cons (a : String × Value) (df : Record) (f : String) :
    lookupCol (a :: df) f = if a.1 = f then some a.2 else lookupCol df f := by
  by_cases h : a.1 = f
  · simp [lookupCol, List.find?_cons, h]
  · simp [lookupCol, List.find?_cons, h]

/-- A column found in the left part of an append is found in the append. -/
theorem lookupCol_append_some (df l : Record) (f : String) (v : Value)
    (h : lookupCol df f = some v) : lookupCol (df ++ l) f = some v := by
  induction df with
  | nil => simp [lookupCol_nil] at h
  | cons a rest ih =>
      rw [lookupCol_cons] at h
      rw [List.cons_append, lookupCol_cons]
      by_cases hc : a.1 = f
      · rwa [if_pos hc] at h ⊢
      · rw [if_neg hc] at h ⊢
        exact ih h

/-- A column absent from the left part of an append is looked up in the
right part. -/
theorem lookupCol_append_none (df l : Record) (f : String)
    (h : lookupCol df f = none) : lookupCol (df ++ l) f = lookupCol l f := by
  induction df with
  | nil => rfl
  | cons a rest ih =>
      rw [lookupCol_cons] at h
      rw [List.cons_append, lookupCol_cons]
      by_cases hc : a.1 = f
      · rw [if_pos hc] at h; cases h
      · rw [if_neg hc] at h ⊢
        exact ih h

/-- Filling missing features never changes a column already present. -/
theorem fillMissing_pres (sch : Schema) (df : Record) (f : String) (v : Value)
    (h : lookupCol df f = some v) : lookupCol (fillMissing sch df) f = some v := by
  induction sch generalizing df with
  | nil => exact h
  | cons g rest ih =>
      simp only [fillMissing]
      by_cases hc : (lookupCol df g).isSome = true
      · rw [if_pos hc]; exact ih df h
      · rw [if_neg hc]; exact ih _ (lookupCol_append_some df _ f v h)

/-- After the filling loop, every schema feature is present in the row. -/
theorem fillMissing_isSome (sch : Schema) (df : Record) (f : String) (hf : f ∈ sch) :
    (lookupCol (fillMissing sch df) f).isSome = true := by
  induction sch generalizing df with
  | nil => cases hf
  | cons g rest ih =>
      simp only [fillMissing]
      by_cases hc : (lookupCol df g).isSome = true
      · rw [if_pos hc]
        rcases List.mem_cons.mp hf with rfl | hf'
        · obtain ⟨v, hv⟩ := Option.isSome_iff_exists.mp hc
          rw [fillMissing_pres rest df f v hv]; rfl
        · exact ih df hf'
      · rw [if_neg hc]
        rcases List.mem_cons.mp hf with rfl | hf'
        · have hn : lookupCol df f = none := by
            cases hcc : lookupCol df f
            · rfl
            · exact absurd (by rw [hcc]; rfl) hc
          have h0 : lookupCol (df ++ [(f, Value.num 0)]) f = some (Value.num 0) := by
            rw [lookupCol_append_none df _ f hn, lookupCol_cons]
            simp
          rw [fillMissing_pres rest _ f _ h0]; rfl
        · exact ih _ hf'

/-- A schema feature absent from the row is filled with the default 0. -/
theorem fillMissing_default (sch : Schema) (df : Record) (f : String)
    (hf : f ∈ sch) (hn : lookupCol df f = none) :
    lookupCol (fillMissing sch df) f = some (Value.num 0) := by
  induction sch generalizing df with
  | nil => cases hf
  | cons g rest ih =>
      simp only [fillMissing]
      by_cases hc : (lookupCol df g).isSome = true
      · rw [if_pos hc]
        rcases List.mem_cons.mp hf with rfl | hf'
        · rw [hn] at hc; cases hc
        · exact ih df hf' hn
      · rw [if_neg hc]
        by_cases hgf : g = f
        · subst hgf
          refine fillMissing_pres rest _ g _ ?_
          rw [lookupCol_append_none df _ g hn, lookupCol_cons]
          simp
        · have hf' : f ∈ rest := by
            rcases List.mem_cons.mp hf with h1 | h1
            · exact absurd h1.symm hgf
            · exact h1
          refine ih _ hf' ?_
          rw [lookupCol_append_none df _ f hn, lookupCol_cons]
          simp [hgf, lookupCol_nil]

/-- Lookup through the per-column rewrite `df[col] = encoded`. -/
theorem lookupCol_encodeRow (df : Record) (col : String) (le : Encoder) (f : String) :
    lookupCol (df.map (fun p => if p.1 = col then (p.1, encodeValue le p.2) else p)) f
      = if f = col then (lookupCol df f).map (encodeValue le) else lookupCol df f := by
  induction df with
  | nil => by_cases h : f = col <;> simp [lookupCol_nil, h]
  | cons a rest ih =>
      rw [List.map_cons, lookupCol_cons, lookupCol_cons]
      have hkey : ((if a.1 = col then (a.1, encodeValue le a.2) else a) : String × Value).1 = a.1 := by
        split <;> rfl
      rw [hkey]
      by_cases haf : a.1 = f
      · rw [if_pos haf, if_pos haf]
        by_cases hac : a.1 = col
        · have hfc : f = col := haf ▸ hac
          rw [if_pos hac, if_pos hfc]
          rfl
        · have hfc : ¬ f = col := fun h => hac (haf ▸ h.symm ▸ rfl)
          rw [if_neg hac, if_neg hfc]
      · rw [if_neg haf, if_neg haf, ih]

/-- Lookup after one iteration of the encoding loop. -/
theorem encodeColumn_lookup (df : Record) (col : String) (le : Encoder) (f : String) :
    lookupCol (encodeColumn col le df) f
      = if f = col then (lookupCol df f).map (encodeValue le) else lookupCol df f := by
  unfold encodeColumn
  by_cases hc : (lookupCol df col).isSome = true
  · rw [if_pos hc]; exact lookupCol_encodeRow df col le f
  · rw [if_neg hc]
    by_cases hfc : f = col
    · subst hfc
      rw [if_pos rfl]
      cases hcc : lookupCol df f
      · rfl
      · exact absurd (by rw [hcc]; rfl) hc
    · rw [if_neg hfc]

/-- The encoding loop distributes over an append of the encoder table. -/
theorem encodeCats_append (xs ys : EncoderTable) (df : Record) :
    encodeCats (xs ++ ys) df = encodeCats ys (encodeCats xs df) := by
  induction xs generalizing df with
  | nil => rfl
  | cons a rest ih =>
      obtain ⟨c, le⟩ := a
      simp only [List.cons_append, encodeCats]
      exact ih _

/-- A column that is not a key of the encoder table is untouched by the
encoding loop. -/
theorem encodeCats_not_key (es : EncoderTable) (df : Record) (f : String)
    (h : f ∉ es.map Prod.fst) : lookupCol (encodeCats es df) f = lookupCol df f := by
  induction es generalizing df with
  | nil => rfl
  | cons a rest ih =>
      obtain ⟨c, le⟩ := a
      simp only [List.map_cons, List.mem_cons] at h
      push_neg at h
      obtain ⟨h1, h2⟩ := h
      simp only [encodeCats]
      rw [ih _ h2, encodeColumn_lookup, if_neg h1]

/-- The encoding loop never adds or removes a column. -/
theorem encodeCats_isSome (es : EncoderTable) (df : Record) (f : String) :
    (lookupCol (encodeCats es df) f).isSome = (lookupCol df f).isSome := by
  induction es generalizing df with
  | nil => rfl
  | cons a rest ih =>
      obtain ⟨c, le⟩ := a
      simp only [encodeCats]
      rw [ih, encodeColumn_lookup]
      by_cases hfc : f = c
      · rw [if_pos hfc]
        cases lookupCol df f <;> rfl
      · rw [if_neg hfc]

/-- A column holding the default 0 still holds 0 after the whole encoding
loop, provided no encoder of that column recognizes the stringified 0. -/
theorem encodeCats_zero (es : EncoderTable) (df : Record) (f : String)
    (h0 : ∀ le, (f, le) ∈ es → le (Value.num 0) = none)
    (hv : lookupCol df f = some (Value.num 0)) :
    lookupCol (encodeCats es df) f = some (Value.num 0) := by
  induction es generalizing df with
  | nil => exact hv
  | cons a rest ih =>
      obtain ⟨c, le⟩ := a
      simp only [encodeCats]
      refine ih _ (fun le' hm => h0 le' (List.mem_cons_of_mem _ hm)) ?_
      rw [encodeColumn_lookup]
      by_cases hfc : f = c
      · subst hfc
        rw [if_pos rfl, hv]
        have hu := h0 le (List.mem_cons_self _ _)
        simp [encodeValue, hu]
      · rw [if_neg hfc]
        exact hv

/-- When every requested column is present, the reordering selects exactly
the schema's columns in schema order. -/
theorem reorder_eq_map (sch : Schema) (df : Record)
    (h : ∀ f ∈ sch, (lookupCol df f).isSome = true) :
    reorder sch df = some (sch.map (colValue df)) := by
  induction sch with
  | nil => rfl
  | cons g rest ih =>
      have hg := h g (List.mem_cons_self _ _)
      obtain ⟨v, hv⟩ := Option.isSome_iff_exists.mp hg
      have hrest := ih (fun f hf => h f (List.mem_cons_of_mem _ hf))
      simp only [reorder, hv, hrest, List.map_cons]
      simp [colValue, hv]

/-- Feature alignment always succeeds and returns exactly the schema's
columns, in schema order, of the filled-and-encoded row. -/
theorem alignFeatures_eq (sch : Schema) (es : EncoderTable) (df : Record) :
    alignFeatures sch es df
      = some (sch.map (colValue (encodeCats es (fillMissing sch df)))) := by
  unfold alignFeatures
  refine reorder_eq_map sch _ (fun f hf => ?_)
  rw [encodeCats_isSome]
  exact fillMissing_isSome sch df f hf

/-- Feature alignment never raises for a structurally valid record. -/
theorem alignFeatures_isSome (sch : Schema) (es : EncoderTable) (df : Record) :
    (alignFeatures sch es df).isSome = true := by
  rw [alignFeatures_eq]; rfl

/-- `round(x, 0)` is the half-even integer rounding, cast back. -/
theorem pyRound_zero (q : ℚ) : pyRound q 0 = ((roundHalfEven q : ℤ) : ℚ) := by
  unfold pyRound
  norm_num

/-- Half-even rounding of a non-negative rational is non-negative. -/
theorem roundHalfEven_nonneg (q : ℚ) (h : 0 ≤ q) : 0 ≤ roundHalfEven q := by
  have hf : (0 : ℤ) ≤ ⌊q⌋ := Int.floor_nonneg.mpr h
  unfold roundHalfEven
  split_ifs <;> omega

/-!
Claim theorems.
-/

/-- C1: the risk classifier checks the ordered half-open day thresholds in
order with first match winning and lower bounds inclusive: d < 180 is HIGH
RISK, 180 ≤ d < 365 ELEVATED RISK, 365 ≤ d < 730 MODERATE RISK, 730 ≤ d
LOWER RISK, each tier paired one-to-one with its recommendation; in
particular 180 classifies ELEVATED, 365 MODERATE and 730 LOWER. -/
theorem c1_risk_thresholds (d : ℚ) :
    (d < 180 → riskStratify d =
      ⟨"HIGH RISK", "🔴", "Immediate intensive care and close monitoring required"⟩) ∧
    (180 ≤ d → d < 365 → riskStratify d =
      ⟨"ELEVATED RISK", "🟠", "Enhanced monitoring and aggressive treatment recommended"⟩) ∧
    (365 ≤ d → d < 730 → riskStratify d =
      ⟨"MODERATE RISK", "🟡", "Standard treatment protocol with regular follow-ups"⟩) ∧
    (730 ≤ d → riskStratify d =
      ⟨"LOWER RISK", "🟢", "Standard care with routine monitoring"⟩) ∧
    riskStratify 180 =
      ⟨"ELEVATED RISK", "🟠", "Enhanced monitoring and aggressive treatment recommended"⟩ ∧
    riskStratify 365 =
      ⟨"MODERATE RISK", "🟡", "Standard treatment protocol with regular follow-ups"⟩ ∧
    riskStratify 730 =
      ⟨"LOWER RISK", "🟢", "Standard care with routine monitoring"⟩ := by
  refine ⟨?_, ?_, ?_, ?_, by decide, by decide, by decide⟩
  · intro h1
    rw [riskStratify, if_pos h1]
  · intro h1 h2
    rw [riskStratify, if_neg (not_lt.mpr h1), if_pos h2]
  · intro h1 h2
    rw [riskStratify, if_neg (not_lt.mpr (by linarith)), if_neg (not_lt.mpr h1), if_pos h2]
  · intro h1
    rw [riskStratify, if_neg (not_lt.mpr (by linarith)), if_neg (not_lt.mpr (by linarith)),
      if_neg (not_lt.mpr h1)]

/-- Witness for C1: the classifier evaluated at 100 and at 400 days. -/
theorem c1_risk_thresholds_witness :
    riskStratify 100 =
      ⟨"HIGH RISK", "🔴", "Immediate intensive care and close monitoring required"⟩ ∧
    riskStratify 400 =
      ⟨"MODERATE RISK", "🟡", "Standard treatment protocol with regular follow-ups"⟩ :=
  ⟨(c1_risk_thresholds 100).1 (by norm_num),
   (c1_risk_thresholds 400).2.2.1 (by norm_num) (by norm_num)⟩

/-- C4: the risk tier of any prediction is computed from the unrounded day
estimate, never from the display-rounded value; concretely, a raw estimate
of 179.6 days classifies HIGH RISK even though predicted_days rounds to 180
in the report. -/
theorem c4_unrounded_classification (scaler : List Value → List ℚ)
    (model : List ℚ → ℚ) (features : Schema) (encoders : EncoderTable) (p : Record) :
    (predict_survival scaler model features encoders p).map PredictionOutput.risk_category
      = (rawEstimate scaler model features encoders p).map
          (fun d => (riskStratify d).risk_category) ∧
    (predict_survival constScaler model1796 ["Age"] [] toyRecord).map
        PredictionOutput.risk_category = some "HIGH RISK" ∧
    (predict_survival constScaler model1796 ["Age"] [] toyRecord).map
        PredictionOutput.predicted_days = some 180 := by
  have halign : alignFeatures ["Age"] [] toyRecord = some [Value.num 68] := by decide
  have hps : predict_survival constScaler model1796 ["Age"] [] toyRecord
      = some { predicted_days := pyRound (1796 / 10) 0
               predicted_months := pyRound (1796 / 10 / 30) 1
               predicted_years := pyRound (1796 / 10 / 365) 2
               risk_category := (riskStratify (1796 / 10)).risk_category
               risk_color := (riskStratify (1796 / 10)).risk_color
               recommendation := (riskStratify (1796 / 10)).recommendation } := by
    unfold predict_survival
    rw [halign]
    rfl
  have hstrat : riskStratify (1796 / 10) =
      ⟨"HIGH RISK", "🔴", "Immediate intensive care and close monitoring required"⟩ := by
    rw [riskStratify, if_pos (by norm_num)]
  have hfloor : ⌊(1796 / 10 : ℚ)⌋ = 179 := by
    rw [Int.floor_eq_iff]
    norm_num
  have hround : pyRound (1796 / 10) 0 = 180 := by
    rw [pyRound_zero]
    unfold roundHalfEven
    rw [hfloor, if_neg (by push_cast; norm_num), if_pos (by push_cast; norm_num)]
    norm_num
  refine ⟨?_, ?_, ?_⟩
  · unfold predict_survival rawEstimate
    cases alignFeatures features encoders p <;> rfl
  · rw [hps]
    simp [hstrat]
  · rw [hps]
    simp [hround]

/-- Witness for C4 at the concrete 179.6-day artifacts. -/
theorem c4_unrounded_classification_witness :
    (predict_survival constScaler model1796 ["Age"] [] toyRecord).map
        PredictionOutput.risk_category = some "HIGH RISK" ∧
    (predict_survival constScaler model1796 ["Age"] [] toyRecord).map
        PredictionOutput.predicted_days = some 180 :=
  ⟨(c4_unrounded_classification constScaler model1796 ["Age"] [] toyRecord).2.1,
   (c4_unrounded_classification constScaler model1796 ["Age"] [] toyRecord).2.2⟩

/-- C5: feature alignment always succeeds for a structurally valid record,
and the produced vector has exactly the schema's length and order — the
schema's columns of the filled-and-encoded row, extra columns dropped. -/
theorem c5_alignment (schema : Schema) (encoders : EncoderTable) (df : Record) :
    ∃ v, alignFeatures schema encoders df = some v ∧
      v.length = schema.length ∧
      v = schema.map (colValue (encodeCats encoders (fillMissing schema df))) := by
  refine ⟨_, alignFeatures_eq schema encoders df, ?_, rfl⟩
  simp

/-- Witness for C5: a record with an extra column not in the schema and a
schema feature missing from the record aligns to exactly the schema order. -/
theorem c5_alignment_witness :
    alignFeatures ["Age", "Tumour_Stage"] [] [("Extra", Value.num 9), ("Age", Value.num 68)]
      = some [Value.num 68, Value.num 0] := by
  obtain ⟨v, hv, hlen, hmap⟩ :=
    c5_alignment ["Age", "Tumour_Stage"] [] [("Extra", Value.num 9), ("Age", Value.num 68)]
  rw [hv, hmap]
  decide

/-- C6: for a categorical column present in the encoder table (table keys
are unique, as in a Python dict), a record value unknown to that column's
fitted encoder is silently replaced by integer code 0, and the pipeline
still completes without error. -/
theorem c6_unknown_category (encoders : EncoderTable) (schema : Schema)
    (df : Record) (col : String) (le : Encoder) (v : Value)
    (hmem : (col, le) ∈ encoders)
    (hkeys : (encoders.map Prod.fst).Nodup)
    (hv : lookupCol df col = some v)
    (hunk : le v = none) :
    lookupCol (encodeCats encoders df) col = some (Value.num 0) ∧
    (alignFeatures schema encoders df).isSome = true := by
  refine ⟨?_, alignFeatures_isSome schema encoders df⟩
  obtain ⟨l1, l2, rfl⟩ := List.append_of_mem hmem
  rw [List.map_append, List.map_cons, List.nodup_append] at hkeys
  obtain ⟨h1, h2, hdisj⟩ := hkeys
  have hcol1 : col ∉ l1.map Prod.fst := fun hc => hdisj hc (List.mem_cons_self _ _)
  have hcol2 : col ∉ l2.map Prod.fst := (List.nodup_cons.mp h2).1
  rw [encodeCats_append]
  simp only [encodeCats]
  rw [encodeCats_not_key l2 _ col hcol2, encodeColumn_lookup, if_pos rfl,
    encodeCats_not_key l1 df col hcol1, hv]
  simp [encodeValue, hunk]

/-- Witness for C6: a single-column table whose encoder does not know the
submitted Histology value yields code 0 for that column. -/
theorem c6_unknown_category_witness :
    lookupCol (encodeCats [("Histology", toyEnc)]
        [("Histology", Value.str "NeverSeen")]) "Histology" = some (Value.num 0) :=
  (c6_unknown_category [("Histology", toyEnc)] ["Histology"]
    [("Histology", Value.str "NeverSeen")] "Histology" toyEnc (Value.str "NeverSeen")
    (List.mem_singleton.mpr rfl) (by simp) rfl (by decide)).1

/-- C7: a schema feature absent from the submitted record is filled with the
default 0, survives the encoding loop with value 0 (no encoder of that
column recognizes the stringified default), ends up as 0 at that feature's
position of the aligned vector, and the pipeline completes without error. -/
theorem c7_missing_feature (schema : Schema) (encoders : EncoderTable)
    (df : Record) (f : String)
    (hf : f ∈ schema) (hmiss : lookupCol df f = none)
    (henc : ∀ le, (f, le) ∈ encoders → le (Value.num 0) = none) :
    colValue (encodeCats encoders (fillMissing schema df)) f = Value.num 0 ∧
    (alignFeatures schema encoders df).isSome = true ∧
    ∀ i : ℕ, schema[i]? = some f →
      ∀ v, alignFeatures schema encoders df = some v → v[i]? = some (Value.num 0) := by
  have hfill := fillMissing_default schema df f hf hmiss
  have hzero := encodeCats_zero encoders _ f henc hfill
  have hcol : colValue (encodeCats encoders (fillMissing schema df)) f = Value.num 0 := by
    rw [colValue, hzero]; rfl
  refine ⟨hcol, alignFeatures_isSome schema encoders df, ?_⟩
  intro i hi v hv
  rw [alignFeatures_eq] at hv
  have hv' : v = schema.map (colValue (encodeCats encoders (fillMissing schema df))) :=
    (Option.some_injective _ hv).symm
  rw [hv', List.getElem?_map, hi]
  simp [hcol]

/-- Witness for C7: a schema feature absent from the empty record is 0 in
the filled-and-encoded row. -/
theorem c7_missing_feature_witness :
    colValue (encodeCats [("Histology", toyEnc)] (fillMissing ["Histology"] [])) "Histology"
      = Value.num 0 := by
  refine (c7_missing_feature ["Histology"] [("Histology", toyEnc)] [] "Histology"
    (List.mem_singleton.mpr rfl) rfl ?_).1
  intro le hm
  rw [List.mem_singleton, Prod.mk.injEq] at hm
  rw [hm.2]
  decide

/-- C8: the risk indicator emitted with a prediction is (under the spec's
symbolic-tag reading, red for 🔴 and so on) exactly the indicator the §4.4
threshold table lists for the assigned tier, in one-to-one correspondence
with the tier. -/
theorem c8_indicator (d : ℚ) :
    indicatorName (riskStratify d).risk_color = specIndicator (riskStratify d).risk_category ∧
    (indicatorName (riskStratify d).risk_color).isSome = true ∧
    ∀ e : ℚ, ((riskStratify d).risk_color = (riskStratify e).risk_color ↔
      (riskStratify d).risk_category = (riskStratify e).risk_category) := by
  unfold riskStratify
  split_ifs <;>
    refine ⟨by decide, by decide, ?_⟩ <;>
    intro e <;> split_ifs <;> decide

/-- Witness for C8 at a concrete day estimate. -/
theorem c8_indicator_witness :
    indicatorName (riskStratify 100).risk_color
      = specIndicator (riskStratify 100).risk_category :=
  (c8_indicator 100).1

/-- C2 counterexample: the pipeline applies no clamping, so a regressor
returning a negative raw estimate yields a negative predicted_days — the
claimed unconditional non-negativity fails. -/
theorem c2_counterexample :
    rawEstimate constScaler negModel ["Age"] [] toyRecord = some (-5) ∧
    (predict_survival constScaler negModel ["Age"] [] toyRecord).map
        PredictionOutput.predicted_days = some (-5) ∧
    ¬ (0 : ℚ) ≤ (-5 : ℚ) := by
  have halign2 : alignFeatures ["Age"] [] toyRecord = some [Value.num 68] := by decide
  have hps : predict_survival constScaler negModel ["Age"] [] toyRecord
      = some { predicted_days := pyRound (-5) 0
               predicted_months := pyRound (-5 / 30) 1
               predicted_years := pyRound (-5 / 365) 2
               risk_category := (riskStratify (-5)).risk_category
               risk_color := (riskStratify (-5)).risk_color
               recommendation := (riskStratify (-5)).recommendation } := by
    unfold predict_survival
    rw [halign2]
    rfl
  have hfloor : ⌊(-5 : ℚ)⌋ = -5 := by
    rw [Int.floor_eq_iff]
    constructor <;> norm_num
  have hround : pyRound (-5) 0 = -5 := by
    rw [pyRound_zero]
    unfold roundHalfEven
    rw [hfloor, if_pos (by push_cast; norm_num)]
    norm_num
  refine ⟨?_, ?_, by norm_num⟩
  · unfold rawEstimate
    rw [halign2]
    rfl
  · rw [hps]
    simp [hround]

/-- C2 amended: predicted_days is the raw model estimate rounded half-even
to whole days with no clamping in between; it is therefore a whole number
of days and is non-negative whenever the raw estimate is non-negative (but
not unconditionally, see the counterexample). -/
theorem c2_amended (scaler : List Value → List ℚ) (model : List ℚ → ℚ)
    (features : Schema) (encoders : EncoderTable) (p : Record) (d : ℚ)
    (hd : rawEstimate scaler model features encoders p = some d)
    (hnn : 0 ≤ d) :
    (predict_survival scaler model features encoders p).map PredictionOutput.predicted_days
      = some (pyRound d 0) ∧
    0 ≤ pyRound d 0 ∧ pyRound d 0 = ((roundHalfEven d : ℤ) : ℚ) := by
  refine ⟨?_, ?_, pyRound_zero d⟩
  · unfold rawEstimate at hd
    unfold predict_survival
    cases halign : alignFeatures features encoders p with
    | none => rw [halign] at hd; cases hd
    | some v =>
        rw [halign] at hd
        simp only [Option.map_some', Option.some.injEq] at hd
        simp [hd]
  · rw [pyRound_zero]
    exact_mod_cast roundHalfEven_nonneg d hnn

/-- Witness for C2's amended theorem at a regressor returning 100 days. -/
theorem c2_amended_witness :
    (predict_survival constScaler model100 ["Age"] [] toyRecord).map
        PredictionOutput.predicted_days = some (pyRound 100 0) ∧
    0 ≤ pyRound 100 0 :=
  ⟨(c2_amended constScaler model100 ["Age"] [] toyRecord 100 (by decide) (by norm_num)).1,
   (c2_amended constScaler model100 ["Age"] [] toyRecord 100 (by decide) (by norm_num)).2.1⟩

/-- C3 counterexample: "pOSITIVE" matches "Positive" case-insensitively,
yet `validate_status` rejects it — the source checks exact membership in
six listed casings, not a case-insensitive match. -/
theorem c3_counterexample :
    matchesCaseInsensitive "pOSITIVE" "Positive" = true ∧
    validate_status "pOSITIVE" = Except.error statusErrMsg := by
  constructor
  · decide
  · rfl

/-- C3 amended: status validation succeeds exactly on the six exact casings
Positive, Negative, positive, negative, POSITIVE, NEGATIVE, normalizing the
accepted value to exactly "Positive" or "Negative"; every other string —
including mixed casings that match case-insensitively — fails with the
message naming the allowed values. -/
theorem c3_amended (v : String) :
    (v ∈ statusAllowed →
      validate_status v = Except.ok (pyCapitalize v) ∧
      (pyCapitalize v = "Positive" ∨ pyCapitalize v = "Negative")) ∧
    (v ∉ statusAllowed → validate_status v = Except.error statusErrMsg) := by
  constructor
  · intro h
    refine ⟨by rw [validate_status, if_pos h], ?_⟩
    have h' := h
    simp only [statusAllowed, List.mem_cons, List.not_mem_nil, or_false] at h'
    rcases h' with rfl | rfl | rfl | rfl | rfl | rfl <;> decide
  · intro h
    rw [validate_status, if_neg h]

/-- Witness for C3's amended theorem at the uppercased input. -/
theorem c3_amended_witness :
    validate_status "POSITIVE" = Except.ok (pyCapitalize "POSITIVE") ∧
    (pyCapitalize "POSITIVE" = "Positive" ∨ pyCapitalize "POSITIVE" = "Negative") :=
  (c3_amended "POSITIVE").1 (by decide)

/-- C9 counterexample: the endpoint's HTTP 500 detail embeds the underlying
exception message verbatim, so the surfaced error is not a generic message
free of internal detail — it varies with the internal failure. -/
theorem c9_counterexample :
    predictEndpoint (Except.error "could not broadcast input array") =
      Except.error ⟨500, "Prediction error: could not broadcast input array"⟩ ∧
    predictEndpoint (Except.error "failure A") ≠ predictEndpoint (Except.error "failure B") := by
  refine ⟨rfl, ?_⟩
  simp [predictEndpoint]

/-- C9 amended: a prediction failure surfaces as HTTP 500 whose detail is
the fixed prefix "Prediction error: " followed by the underlying exception
message — the internal detail is included, not hidden — while per-field
validation rejects the offending field before any prediction is attempted,
with a message naming the constraint and field. -/
theorem c9_amended (e : String) :
    predictEndpoint (Except.error e)
      = Except.error ⟨500, "Prediction error: " ++ e⟩ ∧
    (∀ r : PredictionOutput, predictEndpoint (Except.ok r) = Except.ok r) ∧
    validateAge 150 = Except.error "Input should be between 18 and 100: Age" := by
  refine ⟨rfl, fun r => rfl, rfl⟩

/-- Witness for C9's amended theorem at a concrete failure message. -/
theorem c9_amended_witness :
    predictEndpoint (Except.error "X")
      = Except.error ⟨500, "Prediction error: " ++ "X"⟩ :=
  (c9_amended "X").1

/-- C10: Histology and Surgery_type accept any string whatsoever, including
the empty string, and pass through validation unchanged — the validation
outcome is entirely independent of their content. -/
theorem c10_free_text (p : PatientData) (hh ss : String) :
    validatePatient { p with Histology := hh, Surgery_type := ss }
      = (validatePatient p).map (fun q => { q with Histology := hh, Surgery_type := ss }) ∧
    validatePatient emptyTextPatient = Except.ok emptyTextPatient := by
  constructor
  · dsimp only [validatePatient]
    cases validateAge p.Age <;> dsimp only [Except.bind, Except.map] <;>
    cases validate_gender p.Gender <;> dsimp only [Except.bind, Except.map] <;>
    cases validateProtein "Protein1" p.Protein1 <;> dsimp only [Except.bind, Except.map] <;>
    cases validateProtein "Protein2" p.Protein2 <;> dsimp only [Except.bind, Except.map] <;>
    cases validateProtein "Protein3" p.Protein3 <;> dsimp only [Except.bind, Except.map] <;>
    cases validateProtein "Protein4" p.Protein4 <;> dsimp only [Except.bind, Except.map] <;>
    cases validate_tumour_stage p.Tumour_Stage <;> dsimp only [Except.bind, Except.map] <;>
    cases validate_status p.ER_status <;> dsimp only [Except.bind, Except.map] <;>
    cases validate_status p.PR_status <;> dsimp only [Except.bind, Except.map] <;>
    cases validate_status p.HER2_status <;> dsimp only [Except.bind, Except.map]
  · have hprot : ∀ (n : String) (x : ℚ), -5 ≤ x → x ≤ 5 →
        validateProtein n x = Except.ok x := by
      intro n x h1 h2
      rw [validateProtein, if_pos ⟨h1, h2⟩]
    show validatePatient emptyTextPatient = Except.ok emptyTextPatient
    unfold validatePatient
    dsimp only [emptyTextPatient]
    rw [hprot "Protein1" (-1 / 2) (by norm_num) (by norm_num),
      hprot "Protein2" (4 / 5) (by norm_num) (by norm_num),
      hprot "Protein3" (1 / 5) (by norm_num) (by norm_num),
      hprot "Protein4" (-3 / 10) (by norm_num) (by norm_num)]
    rfl

/-- Witness for C10: a record with both free-text fields empty validates
unchanged. -/
theorem c10_free_text_witness :
    validatePatient emptyTextPatient = Except.ok emptyTextPatient :=
  (c10_free_text emptyTextPatient "" "").2
